import Mathlib

/-!
Shallow embedding of the geometry backend in
`src/scenejs/geometry/geometryModule.js`.

External collaborators (event bus, memory module, error module, WebGL, DOM)
are modelled as follows.

* GPU buffers are opaque handles, tracked by a numeric id in a liveness list
  (`Gpu.live`); `buf.destroy()` removes the id from the list.
* `SceneJS_memoryModule.allocate` either runs the allocating closure or
  throws an out-of-memory error once no evictor can help; which allocations
  succeed is an oracle `ok : Nat → Bool` applied to the id of the buffer
  about to be allocated.
* `document.getElementById(canvasId)` is an oracle `dom : String → Bool`
  saying which canvases still exist in the host page.
* `SceneJS_errorModule.fatalError(e)` logs and throws `e`; modelled as an
  `Err` value.  A JavaScript `TypeError` from dereferencing `null` or
  `undefined` is `Err.typeError`.
* `SceneJS_eventModule.fireEvent` appends the event to a log in the state;
  inbound events are modelled as state-transition functions.

JavaScript objects used as maps are modelled as association lists in
property-insertion order (updating an existing key keeps its position, a new
key is appended at the end), which matches `for-in` enumeration order.
`destroyGeometry` writes `null` into a slot without deleting the key, so a
geometry map sends each key to an `Option Geometry` (`none` is the `null`
slot marker); a key that is absent altogether reads as `undefined`, and both
read back as "no geometry here" via `Option.getD`.
-/

inductive Err where
  | typeError        -- JavaScript TypeError from dereferencing null/undefined
  | missingPrimitive -- NodeConfigExpectedException via fatalError
  | invalidPrimitive -- InvalidGeometryConfigException via fatalError
  | noCanvasActive   -- NoCanvasActiveException via fatalError
  | allocFailure     -- out-of-device-memory propagated by the memory module
  deriving DecidableEq, Repr

/-- The configuration errors of the spec's error taxonomy. -/
def Err.isConfig : Err → Bool
  | .missingPrimitive => true
  | .invalidPrimitive => true
  | _ => false

/-- The GPU buffer store: a fresh-id counter and the set (list) of live
buffer ids. -/
structure Gpu where
  nextId : Nat
  live : List Nat
  deriving DecidableEq, Repr

/-- `buf.destroy()` on the opaque handle abstraction. -/
def Gpu.destroyBuf (g : Gpu) (b : Nat) : Gpu :=
  { g with live := g.live.erase b }

/-- One geometry record (the object built at lines 280-292 of the source).
`vertexBuf` and `indexBuf` are mandatory: a record is stored only after
every allocation succeeded, so the corresponding JS truthiness guards on
them always pass for stored records. -/
structure Geometry where
  primitive : Nat
  type : String
  lastUsed : Nat
  canvasId : String          -- geo.canvas.canvasId back-reference
  vertexBuf : Nat
  normalBuf : Option Nat
  indexBuf : Nat
  uvBuf : Option Nat
  uvBuf2 : Option Nat
  deriving DecidableEq, Repr

/-- Per-canvas geometry map: type id to slot (a `none` slot is the `null`
written by `destroyGeometry`). -/
abbrev GeoMap := List (String × Option Geometry)

/-- JS property read `m[k]`: `none` when the key is absent. -/
def lookupMap {α : Type} : List (String × α) → String → Option α
  | [], _ => none
  | (k, v) :: rest, k0 => if k = k0 then some v else lookupMap rest k0

/-- JS property write `m[k] = v`: update in place, append when new. -/
def setMap {α : Type} : List (String × α) → String → α → List (String × α)
  | [], k0, v0 => [(k0, v0)]
  | (k, v) :: rest, k0, v0 =>
      if k = k0 then (k0, v0) :: rest else (k, v) :: setMap rest k0 v0

/-- Read the slot for type `t` on canvas `cid`: `geoMaps[cid][t]`, where an
absent key and a nulled slot both read back as "no geometry here". -/
def readSlot (maps : List (String × GeoMap)) (cid t : String) : Option Geometry :=
  (lookupMap ((lookupMap maps cid).getD []) t).getD none

/-- Write the slot for type `t` on canvas `cid` through the map alias:
`geoMaps[cid][t] = v`. -/
def writeSlot (maps : List (String × GeoMap)) (cid t : String)
    (v : Option Geometry) : List (String × GeoMap) :=
  setMap maps cid (setMap ((lookupMap maps cid).getD []) t v)

/-- Events fired on the bus by this module. -/
inductive Ev where
  | geometryUpdated (geo : Option Geometry)  -- GEOMETRY_UPDATED
  | shaderActivateReq                        -- SHADER_ACTIVATE
  | geometryExported (geo : Geometry)        -- GEOMETRY_EXPORTED
  deriving DecidableEq, Repr

/-- The module-level mutable state (lines 36-40 of the source), plus the
GPU store and the outbound-event log. `currentGeoMap` holds the canvas id
whose map the JS variable aliases: the alias and `geoMaps` are always
mutated together, and every handler that could unhook them clears both. -/
structure St where
  time : Nat
  canvas : Option String
  geoMaps : List (String × GeoMap)
  currentGeoMap : Option String
  currentBoundGeoType : Option String
  gpu : Gpu
  log : List Ev
  deriving DecidableEq, Repr

/-- fireEvent: append to the outbound log. -/
def fire (s : St) (e : Ev) : St := { s with log := s.log ++ [e] }

/-- The module state right after load. -/
def initSt : St :=
  { time := 0
    canvas := none
    geoMaps := []
    currentGeoMap := none
    currentBoundGeoType := none
    gpu := ⟨0, []⟩
    log := [] }

/-- TIME_UPDATED handler. -/
def timeUpdated (t : Nat) (s : St) : St := { s with time := t }

/-- SCENE_ACTIVATED handler. -/
def sceneActivated (s : St) : St :=
  { s with canvas := none, currentGeoMap := none, currentBoundGeoType := none }

/-- CANVAS_ACTIVATED handler: lazily create the canvas's geometry map,
select it, clear the bound type. -/
def canvasActivated (cid : String) (s : St) : St :=
  let s :=
    match lookupMap s.geoMaps cid with
    | none => { s with geoMaps := setMap s.geoMaps cid ([] : GeoMap) }
    | some _ => s
  { s with
    canvas := some cid
    currentGeoMap := some cid
    currentBoundGeoType := none }

/-- CANVAS_DEACTIVATED handler. -/
def canvasDeactivated (s : St) : St :=
  { s with canvas := none, currentGeoMap := none, currentBoundGeoType := none }

/-- SHADER_ACTIVATED handler. -/
def shaderActivated (s : St) : St := { s with currentBoundGeoType := none }

/-- SHADER_DEACTIVATED handler. -/
def shaderDeactivated (s : St) : St := { s with currentBoundGeoType := none }

/-- `destroyGeometry(geo)` (lines 108-134).  Clears the bound type when it
names this record's type; when the owning canvas still exists in the DOM,
destroys buffers; then nulls the record's slot in its canvas's map.
Faithful to the source, the index buffer is destroyed under a repeated test
of `geo.normalBuf` (line 120), not of `geo.indexBuf`. -/
def destroyGeometry (dom : String → Bool) (geo : Geometry) (s : St) : St :=
  let s :=
    if s.currentBoundGeoType = some geo.type then
      { s with currentBoundGeoType := none }
    else s
  let s :=
    if dom geo.canvasId then
      let g := s.gpu.destroyBuf geo.vertexBuf
      let g := match geo.normalBuf with
        | some b => g.destroyBuf b
        | none => g
      let g := match geo.normalBuf with
        | some _ => g.destroyBuf geo.indexBuf
        | none => g
      let g := match geo.uvBuf with
        | some b => g.destroyBuf b
        | none => g
      let g := match geo.uvBuf2 with
        | some b => g.destroyBuf b
        | none => g
      { s with gpu := g }
    else s
  match lookupMap s.geoMaps geo.canvasId with
  | some _ =>
      { s with geoMaps := writeSlot s.geoMaps geo.canvasId geo.type none }
  | none => s

/-- One step of the evictor's scan (the body of the inner loop,
lines 148-155): keep the candidate only when its `lastUsed` is strictly
below the best so far and its canvas still exists. -/
def evStep (dom : String → Bool) (acc : Nat × Option Geometry) (geo : Geometry) :
    Nat × Option Geometry :=
  if geo.lastUsed < acc.1 ∧ dom geo.canvasId = true then (geo.lastUsed, some geo)
  else acc

/-- The evictor's inner loop over one canvas's map; `null` slots are skipped
by the `if (geometry)` guard. -/
def scanEntries (dom : String → Bool) :
    List (String × Option Geometry) → Nat × Option Geometry → Nat × Option Geometry
  | [], acc => acc
  | (_, none) :: rest, acc => scanEntries dom rest acc
  | (_, some geo) :: rest, acc => scanEntries dom rest (evStep dom acc geo)

/-- The evictor's outer loop over all canvases. -/
def scanMaps (dom : String → Bool) :
    List (String × GeoMap) → Nat × Option Geometry → Nat × Option Geometry
  | [], acc => acc
  | (_, gm) :: rest, acc => scanMaps dom rest (scanEntries dom gm acc)

/-- The callback registered with `SceneJS_memoryModule.registerEvictor`
(lines 140-165): scan with `earliest` starting at the current clock, destroy
the evictee when one was found and report `true`, else report `false`. -/
def runEvictor (dom : String → Bool) (s : St) : St × Bool :=
  match (scanMaps dom s.geoMaps (s.time, none)).2 with
  | some evictee => (destroyGeometry dom evictee s, true)
  | none => (s, false)

/-- Modelled from the spec: `SceneJS._utils.createKeyForMap` is not under
`src/`; per the spec it generates "a fresh identifier unique within the
active surface's cache".  Modelled as the prefix followed by every existing
key, which is strictly longer than, hence different from, every key of the
map. -/
def createKeyForMap (m : GeoMap) (pfx : String) : String :=
  m.foldl (fun acc p => acc ++ p.1) pfx

/-- JS `data.xs && data.xs.length > 0`. -/
def nonEmptyArr : Option (List Nat) → Bool
  | some l => decide (0 < l.length)
  | none => false

/-- `getPrimitiveType` (lines 192-215): the seven recognized primitive
strings map to the corresponding WebGL constants; anything else is a fatal
`InvalidGeometryConfigException` (modelled as `none`). -/
def getPrimitiveType : String → Option Nat
  | "points" => some 0
  | "lines" => some 1
  | "line-loop" => some 2
  | "line-strip" => some 3
  | "triangles" => some 4
  | "triangle-strip" => some 5
  | "triangle-fan" => some 6
  | _ => none

/-- `createArrayBuffer` (lines 178-186).  Modelled from the spec for the
memory module it delegates to: `SceneJS_memoryModule.allocate` retries via
registered evictors internally and either completes the allocating closure
or propagates an out-of-memory error; the outcome is the oracle `ok` on the
id being allocated. -/
def createArrayBuffer (ok : Nat → Bool) (g : Gpu) : Except Err (Nat × Gpu) :=
  if ok g.nextId then .ok (g.nextId, ⟨g.nextId + 1, g.nextId :: g.live⟩)
  else .error .allocFailure

/-- A conditional allocation (`normals` / `uv` / `uv2` are only allocated
when their source array is non-empty). -/
def allocOpt (ok : Nat → Bool) (cond : Bool) (g : Gpu) :
    Except Err (Option Nat × Gpu) :=
  if cond then
    match createArrayBuffer ok g with
    | .ok (b, g) => .ok (some b, g)
    | .error e => .error e
  else .ok (none, g)

def optCons : Option Nat → List Nat → List Nat
  | some b, l => b :: l
  | none, l => l

/-- The catch block's clean-up (lines 297-311): destroy each buffer that was
allocated, in the order vertex, normal, uv, uv2, index. -/
def catchDestroy (g : Gpu) (bufs : List Nat) : Gpu := bufs.foldl Gpu.destroyBuf g

/-- Input to `createGeometry` (§6 of the spec); element values are opaque. -/
structure GeoData where
  primitive : Option String
  positions : List Nat
  normals : Option (List Nat)
  uv : Option (List Nat)
  uv2 : Option (List Nat)
  indices : List Nat
  deriving DecidableEq, Repr

/-- The buffers allocated by a successful pass through the try block. -/
structure AllocOut where
  vertexBuf : Nat
  normalBuf : Option Nat
  uvBuf : Option Nat
  uvBuf2 : Option Nat
  indexBuf : Nat
  gpu : Gpu
  deriving DecidableEq, Repr

/-- The allocation sequence of the try block (lines 255-278): vertex, then
normal / uv / uv2 when non-empty, then index.  On failure, returns the GPU
state at the failure together with the ids the catch block will destroy, in
catch order. -/
def allocAll (ok : Nat → Bool) (data : GeoData) (g0 : Gpu) :
    Except (Gpu × List Nat) AllocOut :=
  match createArrayBuffer ok g0 with
  | .error _ => .error (g0, [])
  | .ok (v, g) =>
  match allocOpt ok (nonEmptyArr data.normals) g with
  | .error _ => .error (g, [v])
  | .ok (nrm, g) =>
  match allocOpt ok (nonEmptyArr data.uv) g with
  | .error _ => .error (g, v :: optCons nrm [])
  | .ok (uv, g) =>
  match allocOpt ok (nonEmptyArr data.uv2) g with
  | .error _ => .error (g, v :: optCons nrm (optCons uv []))
  | .ok (uv2, g) =>
  match createArrayBuffer ok g with
  | .error _ => .error (g, v :: optCons nrm (optCons uv (optCons uv2 [])))
  | .ok (idx, g) => .ok ⟨v, nrm, uv, uv2, idx, g⟩

/-- The ids the catch block destroys when every allocation succeeded. -/
def allBufs (out : AllocOut) : List Nat :=
  out.vertexBuf ::
    optCons out.normalBuf (optCons out.uvBuf (optCons out.uvBuf2 [out.indexBuf]))

/-- Lines 232-234: `if (!type) type = SceneJS._utils.createKeyForMap(
currentGeoMap, "type")` — a falsy (absent or empty) type argument makes the
call generate a key from the current map, which throws when no map is
selected. -/
def resolveType (tOpt : Option String) (s : St) : Except Err String :=
  match tOpt with
  | some t =>
    if t.isEmpty then
      match s.currentGeoMap with
      | none => .error .typeError
      | some cid => .ok (createKeyForMap ((lookupMap s.geoMaps cid).getD []) "type")
    else .ok t
  | none =>
    match s.currentGeoMap with
    | none => .error .typeError
    | some cid => .ok (createKeyForMap ((lookupMap s.geoMaps cid).getD []) "type")

/-- `createGeometry(type, data)` (lines 231-314).  Order of effects follows
the source: resolve the type id (generating one when the argument is falsy,
which dereferences the current map), check `data.primitive` for truthiness,
read `canvas.context`, then the try block: allocate the five buffers, build
the record (resolving the primitive string, which can throw), store it in
the current map.  The catch block destroys every buffer allocated so far
and re-raises. -/
def createGeometry (ok : Nat → Bool) (tOpt : Option String) (data : GeoData)
    (s : St) : St × Except Err String :=
  match resolveType tOpt s with
  | .error e => (s, .error e)
  | .ok type =>
  match data.primitive with
  | none => (s, .error .missingPrimitive)
  | some prim =>
  if prim.isEmpty then (s, .error .missingPrimitive)
  else
  match s.canvas with
  | none => (s, .error .typeError)   -- var context = canvas.context
  | some cid =>
  match allocAll ok data s.gpu with
  | .error (g, bufs) => ({ s with gpu := catchDestroy g bufs }, .error .allocFailure)
  | .ok out =>
  match getPrimitiveType prim with
  | none =>
      ({ s with gpu := catchDestroy out.gpu (allBufs out) }, .error .invalidPrimitive)
  | some p =>
  let geo : Geometry :=
    { primitive := p, type := type, lastUsed := s.time, canvasId := cid,
      vertexBuf := out.vertexBuf, normalBuf := out.normalBuf,
      indexBuf := out.indexBuf, uvBuf := out.uvBuf, uvBuf2 := out.uvBuf2 }
  match s.currentGeoMap with
  | none =>
      ({ s with gpu := catchDestroy out.gpu (allBufs out) }, .error .typeError)
  | some mid =>
      ({ s with
          gpu := out.gpu
          geoMaps := writeSlot s.geoMaps mid type (some geo) },
       .ok type)

/-- `testGeometryExists(type)` (lines 222-224): `currentGeoMap[type] ? true
: false`; dereferencing the `null` map throws. -/
def testGeometryExists (s : St) (t : String) : Except Err Bool :=
  match s.currentGeoMap with
  | none => .error .typeError
  | some mid =>
  match readSlot s.geoMaps mid t with
  | some _ => .ok true
  | none => .ok false

/-- `drawGeometry(type)` (lines 322-370).  Fatal when no canvas is active;
reads the record, fires GEOMETRY_UPDATED and SHADER_ACTIVATE, refreshes
`lastUsed` (throwing when the record is absent), and unless the bound type
already equals `type`, fires GEOMETRY_EXPORTED and binds (the attribute
disabling, index binding, drawElements and flush are opaque GPU calls). -/
def drawGeometry (t : String) (s : St) : St × Option Err :=
  match s.canvas with
  | none => (s, some .noCanvasActive)
  | some _ =>
  match s.currentGeoMap with
  | none => (s, some .typeError)   -- var geo = currentGeoMap[type]
  | some mid =>
  let geoOpt := readSlot s.geoMaps mid t
  let s := fire s (.geometryUpdated geoOpt)
  let s := fire s .shaderActivateReq
  match geoOpt with
  | none => (s, some .typeError)   -- geo.lastUsed = time throws
  | some geo =>
  let geo := { geo with lastUsed := s.time }
  let s := { s with geoMaps := writeSlot s.geoMaps mid t (some geo) }
  if s.currentBoundGeoType = some t then (s, none)
  else
    let s := fire s (.geometryExported geo)
    ({ s with currentBoundGeoType := some t }, none)

/-- The RESET handler's inner loop: for each key of the canvas's map (keys
are never added or removed during the loop, values are re-read live), call
`destroyGeometry` on the slot's value; a `null` slot makes
`destroyGeometry(null)` throw a TypeError at `geo.type`. -/
def destroyKeys (dom : String → Bool) (cid : String) :
    List String → St → St × Option Err
  | [], s => (s, none)
  | k :: rest, s =>
    match readSlot s.geoMaps cid k with
    | some geo => destroyKeys dom cid rest (destroyGeometry dom geo s)
    | none => (s, some .typeError)

/-- The RESET handler's outer loop over all canvases. -/
def resetMaps (dom : String → Bool) : List String → St → St × Option Err
  | [], s => (s, none)
  | cid :: rest, s =>
    let keys := ((lookupMap s.geoMaps cid).getD []).map Prod.fst
    match destroyKeys dom cid keys s with
    | (s, none) => resetMaps dom rest s
    | (s, some e) => (s, some e)

/-- RESET handler (lines 87-101): destroy every geometry on every canvas,
then discard all maps and clear canvas, current map and bound type. -/
def reset (dom : String → Bool) (s : St) : St × Option Err :=
  match resetMaps dom (s.geoMaps.map Prod.fst) s with
  | (s, none) =>
      ({ s with
          canvas := none
          geoMaps := []
          currentGeoMap := none
          currentBoundGeoType := none }, none)
  | (s, some e) => (s, some e)

/-- The operations and inbound events of the module, for stating invariants
over every transition. -/
inductive Op where
  | timeUpdated (t : Nat)
  | sceneActivated
  | canvasActivated (cid : String)
  | canvasDeactivated
  | shaderActivated
  | shaderDeactivated
  | reset
  | evict
  | create (tOpt : Option String) (data : GeoData)
  | draw (t : String)
  deriving DecidableEq, Repr

/-- One transition of the module, returning the state as left by the
operation (JavaScript mutations persist up to the point an exception is
raised) and the error, when one was raised. -/
def step (dom : String → Bool) (ok : Nat → Bool) : Op → St → St × Option Err
  | .timeUpdated t, s => (timeUpdated t s, none)
  | .sceneActivated, s => (sceneActivated s, none)
  | .canvasActivated cid, s => (canvasActivated cid s, none)
  | .canvasDeactivated, s => (canvasDeactivated s, none)
  | .shaderActivated, s => (shaderActivated s, none)
  | .shaderDeactivated, s => (shaderDeactivated s, none)
  | .reset, s => reset dom s
  | .evict, s => ((runEvictor dom s).1, none)
  | .create tOpt data, s =>
      let r := createGeometry ok tOpt data s
      (r.1, match r.2 with | .ok _ => none | .error e => some e)
  | .draw t, s => drawGeometry t s

/-- The GEOMETRY_EXPORTED events of a log. -/
def exportEvents (log : List Ev) : List Ev :=
  log.filter (fun e => match e with | .geometryExported _ => true | _ => false)

/-- Every geometry stored in some canvas's map (nulled slots skipped), in
the order the evictor's two nested loops visit them. -/
def allGeos : List (String × GeoMap) → List Geometry
  | [] => []
  | (_, gm) :: rest => gm.filterMap (fun p => p.2) ++ allGeos rest

/-- An eviction candidate: its canvas still exists and it was last used
strictly before the current clock value. -/
def isCand (dom : String → Bool) (tm : Nat) (g : Geometry) : Bool :=
  dom g.canvasId && decide (g.lastUsed < tm)

/-- The eviction candidates of a state. -/
def cands (dom : String → Bool) (s : St) : List Geometry :=
  (allGeos s.geoMaps).filter (isCand dom s.time)

instance {ε α : Type} [DecidableEq ε] [DecidableEq α] :
    DecidableEq (Except ε α) := fun x y =>
  match x, y with
  | .ok a, .ok b =>
    match decEq a b with
    | .isTrue h => .isTrue (congrArg Except.ok h)
    | .isFalse h => .isFalse (fun he => h (Except.ok.inj he))
  | .error a, .error b =>
    match decEq a b with
    | .isTrue h => .isTrue (congrArg Except.error h)
    | .isFalse h => .isFalse (fun he => h (Except.error.inj he))
  | .ok _, .error _ => .isFalse (fun he => Except.noConfusion he)
  | .error _, .ok _ => .isFalse (fun he => Except.noConfusion he)

/-- The bound-type invariant of the spec's data model: when a type is bound,
the active surface's cache holds a record under that type id. -/
def BoundInv (s : St) : Prop :=
  match s.currentBoundGeoType with
  | none => True
  | some t => testGeometryExists s t = .ok true

instance (s : St) : Decidable (BoundInv s) :=
  match h : s.currentBoundGeoType with
  | none => .isTrue (by unfold BoundInv; rw [h]; trivial)
  | some t =>
    if ht : testGeometryExists s t = .ok true then
      .isTrue (by unfold BoundInv; rw [h]; exact ht)
    else
      .isFalse (by unfold BoundInv; rw [h]; exact ht)

/-! Concrete data for counterexamples and witnesses. -/

/-- A host page on which every canvas exists. -/
def domAll : String → Bool := fun _ => true

/-- An allocator on which every allocation succeeds. -/
def okAll : Nat → Bool := fun _ => true

/-- An allocator on which only the first allocation (buffer id 0) succeeds. -/
def okFirstOnly : Nat → Bool := fun n => decide (n = 0)

/-- Plain triangle data: positions and indices only. -/
def dataT : GeoData :=
  { primitive := some "triangles", positions := [0, 0, 0, 0, 0, 0, 0, 0, 0],
    normals := none, uv := none, uv2 := none, indices := [0, 1, 2] }

/-- Triangle data that also carries normals. -/
def dataN : GeoData :=
  { primitive := some "triangles", positions := [0, 0, 0, 0, 0, 0, 0, 0, 0],
    normals := some [0, 0, 0], uv := none, uv2 := none, indices := [0, 1, 2] }

/-- Data with an unrecognized primitive string. -/
def dataBogus : GeoData :=
  { primitive := some "bogus", positions := [0, 0, 0], normals := none,
    uv := none, uv2 := none, indices := [0] }

/-- State with canvas "S1" activated. -/
def sAct : St := canvasActivated "S1" initSt

/-- State after creating geometry "A" on canvas "S1". -/
def sA : St := (createGeometry okAll (some "A") dataT sAct).1

/-- State after creating geometries "A" and "B" on canvas "S1". -/
def sAB : St := (createGeometry okAll (some "B") dataT sA).1

/-- `sAB` after drawing "B" (which binds "B"). -/
def sABdrawB : St := (drawGeometry "B" sAB).1

/-- `sABdrawB` at the next clock tick, after the evictor removed "A": the
slot for "A" holds the null marker while "B" is still cached and bound. -/
def sEvicted : St := (runEvictor domAll (timeUpdated 1 sABdrawB)).1

/-- A record with no normal buffer (vertex buffer id 0, index buffer id 1),
as created for geometry "A" of `sA`. -/
def geoA : Geometry :=
  { primitive := 4, type := "A", lastUsed := 0, canvasId := "S1",
    vertexBuf := 0, normalBuf := none, indexBuf := 1, uvBuf := none,
    uvBuf2 := none }

/-- A one-record state holding `geoA` with both of its buffers live. -/
def sC1 : St :=
  { initSt with geoMaps := [("S1", [("A", some geoA)])], gpu := ⟨2, [1, 0]⟩ }

/-- The record stored for "B" in `sAB` (buffer ids 2 and 3). -/
def geoB : Geometry :=
  { primitive := 4, type := "B", lastUsed := 0, canvasId := "S1",
    vertexBuf := 2, normalBuf := none, indexBuf := 3, uvBuf := none,
    uvBuf2 := none }

/-! ## Lemmas about the association-list maps -/

theorem lookupMap_setMap_self {α : Type} (m : List (String × α)) (k : String)
    (v : α) : lookupMap (setMap m k v) k = some v := by
  induction m with
  | nil => simp [setMap, lookupMap]
  | cons p rest ih =>
    obtain ⟨k1, v1⟩ := p
    by_cases h : k1 = k
    · simp [setMap, h, lookupMap]
    · simp [setMap, h, lookupMap, ih]

theorem lookupMap_setMap_ne {α : Type} (m : List (String × α)) (k k' : String)
    (v : α) (h : k ≠ k') : lookupMap (setMap m k v) k' = lookupMap m k' := by
  induction m with
  | nil => simp [setMap, lookupMap, h]
  | cons p rest ih =>
    obtain ⟨k1, v1⟩ := p
    by_cases h1 : k1 = k
    · subst h1; simp [setMap, lookupMap, h]
    · simp [setMap, h1, lookupMap, ih]

theorem readSlot_writeSlot_self (maps : List (String × GeoMap)) (cid t : String)
    (v : Option Geometry) : readSlot (writeSlot maps cid t v) cid t = v := by
  unfold readSlot writeSlot
  rw [lookupMap_setMap_self]
  simp [lookupMap_setMap_self]

theorem readSlot_writeSlot_ne (maps : List (String × GeoMap))
    (cid t cid' t' : String) (v : Option Geometry) (h : cid ≠ cid' ∨ t ≠ t') :
    readSlot (writeSlot maps cid t v) cid' t' = readSlot maps cid' t' := by
  unfold readSlot writeSlot
  rcases h with h | h
  · rw [lookupMap_setMap_ne _ _ _ _ h]
  · by_cases hc : cid = cid'
    · subst hc
      rw [lookupMap_setMap_self]
      simp [lookupMap_setMap_ne _ _ _ _ h]
    · rw [lookupMap_setMap_ne _ _ _ _ hc]

/-! ## Freshness of generated type identifiers -/

theorem createKeyForMap_length (m : GeoMap) (a : String) :
    (m.foldl (fun acc p => acc ++ p.1) a).length =
      a.length + (m.map (fun p => p.1.length)).sum := by
  induction m generalizing a with
  | nil => simp
  | cons q rest ih =>
    simp only [List.foldl_cons, List.map_cons, List.sum_cons]
    rw [ih, String.length_append]
    omega

theorem lookupMap_eq_none_of_longer {α : Type} (m : List (String × α))
    (k : String) (h : ∀ p ∈ m, p.1.length < k.length) : lookupMap m k = none := by
  induction m with
  | nil => rfl
  | cons q rest ih =>
    obtain ⟨k1, v1⟩ := q
    have hq : k1.length < k.length := h (k1, v1) (by simp)
    have hne : k1 ≠ k := by
      intro he
      rw [he] at hq
      omega
    simp only [lookupMap, hne, if_false]
    exact ih (fun p hp => h p (by simp [hp]))

theorem lookupMap_createKeyForMap (m : GeoMap) (pfx : String)
    (hp : 0 < pfx.length) : lookupMap m (createKeyForMap m pfx) = none := by
  apply lookupMap_eq_none_of_longer
  intro p hmem
  have hl : p.1.length ≤ (m.map (fun p => p.1.length)).sum := by
    apply List.single_le_sum (fun x _ => Nat.zero_le x)
    exact List.mem_map.mpr ⟨p, hmem, rfl⟩
  rw [createKeyForMap, createKeyForMap_length]
  omega

/-! ## Characterizing testGeometryExists and the invariant -/

theorem testGeometryExists_ok_true (s : St) (t : String) :
    testGeometryExists s t = .ok true ↔
      ∃ mid, s.currentGeoMap = some mid ∧ (readSlot s.geoMaps mid t).isSome := by
  unfold testGeometryExists
  cases hm : s.currentGeoMap with
  | none => simp
  | some mid =>
    cases hr : readSlot s.geoMaps mid t with
    | none => simp [hr]
    | some g => simp [hr]

theorem test_congr (s s' : St) (t : String)
    (hm : s'.currentGeoMap = s.currentGeoMap) (hg : s'.geoMaps = s.geoMaps) :
    testGeometryExists s' t = testGeometryExists s t := by
  unfold testGeometryExists
  rw [hm, hg]

theorem BoundInv_def (s : St) :
    BoundInv s ↔
      ∀ t, s.currentBoundGeoType = some t → testGeometryExists s t = .ok true := by
  unfold BoundInv
  cases h : s.currentBoundGeoType with
  | none => simp
  | some a =>
    simp only []
    constructor
    · intro H t ht
      cases ht
      exact H
    · intro H
      exact H a rfl

theorem BoundInv_of_none (s : St) (h : s.currentBoundGeoType = none) :
    BoundInv s := by
  unfold BoundInv
  rw [h]
  trivial

theorem BoundInv_congr (s s' : St)
    (hb : s'.currentBoundGeoType = s.currentBoundGeoType)
    (hm : s'.currentGeoMap = s.currentGeoMap) (hg : s'.geoMaps = s.geoMaps)
    (h : BoundInv s) : BoundInv s' := by
  rw [BoundInv_def] at h ⊢
  intro t ht
  rw [test_congr s s' t hm hg]
  exact h t (by rw [← hb]; exact ht)

/-! ## destroyGeometry: field characterizations -/

theorem destroyGeometry_time (dom : String → Bool) (geo : Geometry) (s : St) :
    (destroyGeometry dom geo s).time = s.time := by
  unfold destroyGeometry
  by_cases h1 : s.currentBoundGeoType = some geo.type <;>
    by_cases h2 : dom geo.canvasId <;>
    simp only [h1, h2, if_true, if_false, ite_true, ite_false] <;>
    cases h3 : lookupMap s.geoMaps geo.canvasId <;>
    simp [h3]

theorem destroyGeometry_canvas (dom : String → Bool) (geo : Geometry) (s : St) :
    (destroyGeometry dom geo s).canvas = s.canvas := by
  unfold destroyGeometry
  by_cases h1 : s.currentBoundGeoType = some geo.type <;>
    by_cases h2 : dom geo.canvasId <;>
    simp only [h1, h2, if_true, if_false, ite_true, ite_false] <;>
    cases h3 : lookupMap s.geoMaps geo.canvasId <;>
    simp [h3]

theorem destroyGeometry_currentGeoMap (dom : String → Bool) (geo : Geometry)
    (s : St) : (destroyGeometry dom geo s).currentGeoMap = s.currentGeoMap := by
  unfold destroyGeometry
  by_cases h1 : s.currentBoundGeoType = some geo.type <;>
    by_cases h2 : dom geo.canvasId <;>
    simp only [h1, h2, if_true, if_false, ite_true, ite_false] <;>
    cases h3 : lookupMap s.geoMaps geo.canvasId <;>
    simp [h3]

theorem destroyGeometry_log (dom : String → Bool) (geo : Geometry) (s : St) :
    (destroyGeometry dom geo s).log = s.log := by
  unfold destroyGeometry
  by_cases h1 : s.currentBoundGeoType = some geo.type <;>
    by_cases h2 : dom geo.canvasId <;>
    simp only [h1, h2, if_true, if_false, ite_true, ite_false] <;>
    cases h3 : lookupMap s.geoMaps geo.canvasId <;>
    simp [h3]

theorem destroyGeometry_bound (dom : String → Bool) (geo : Geometry) (s : St) :
    (destroyGeometry dom geo s).currentBoundGeoType =
      if s.currentBoundGeoType = some geo.type then none
      else s.currentBoundGeoType := by
  unfold destroyGeometry
  by_cases h1 : s.currentBoundGeoType = some geo.type <;>
    by_cases h2 : dom geo.canvasId <;>
    simp only [h1, h2, if_true, if_false, ite_true, ite_false] <;>
    cases h3 : lookupMap s.geoMaps geo.canvasId <;>
    simp [h3]

theorem destroyGeometry_geoMaps (dom : String → Bool) (geo : Geometry) (s : St) :
    (destroyGeometry dom geo s).geoMaps =
      if (lookupMap s.geoMaps geo.canvasId).isSome then
        writeSlot s.geoMaps geo.canvasId geo.type none
      else s.geoMaps := by
  unfold destroyGeometry
  by_cases h1 : s.currentBoundGeoType = some geo.type <;>
    by_cases h2 : dom geo.canvasId <;>
    simp only [h1, h2, if_true, if_false, ite_true, ite_false] <;>
    cases h3 : lookupMap s.geoMaps geo.canvasId <;>
    simp [h3]

theorem readSlot_destroyGeometry (dom : String → Bool) (geo : Geometry) (s : St)
    (cid t : String) (h : geo.canvasId ≠ cid ∨ geo.type ≠ t) :
    readSlot (destroyGeometry dom geo s).geoMaps cid t =
      readSlot s.geoMaps cid t := by
  rw [destroyGeometry_geoMaps]
  by_cases h3 : (lookupMap s.geoMaps geo.canvasId).isSome
  · simp only [h3, if_true]
    exact readSlot_writeSlot_ne _ _ _ _ _ _ h
  · simp [h3]

/-! ## Invariant preservation, operation by operation -/

theorem BoundInv_destroyGeometry (dom : String → Bool) (geo : Geometry) (s : St)
    (h : BoundInv s) : BoundInv (destroyGeometry dom geo s) := by
  by_cases hb : s.currentBoundGeoType = some geo.type
  · apply BoundInv_of_none
    rw [destroyGeometry_bound, if_pos hb]
  · rw [BoundInv_def]
    intro t ht
    rw [destroyGeometry_bound, if_neg hb] at ht
    have htne : geo.type ≠ t := by
      intro he
      exact hb (by rw [he]; exact ht)
    have h1 := (BoundInv_def s).mp h t ht
    rw [testGeometryExists_ok_true] at h1 ⊢
    obtain ⟨mid, hmid, hsome⟩ := h1
    refine ⟨mid, ?_, ?_⟩
    · rw [destroyGeometry_currentGeoMap]
      exact hmid
    · rw [readSlot_destroyGeometry dom geo s mid t (Or.inr htne)]
      exact hsome

theorem BoundInv_timeUpdated (t : Nat) (s : St) (h : BoundInv s) :
    BoundInv (timeUpdated t s) :=
  BoundInv_congr s (timeUpdated t s) rfl rfl rfl h

theorem sceneActivated_bound (s : St) :
    (sceneActivated s).currentBoundGeoType = none := rfl

theorem canvasActivated_bound (cid : String) (s : St) :
    (canvasActivated cid s).currentBoundGeoType = none := rfl

theorem canvasDeactivated_bound (s : St) :
    (canvasDeactivated s).currentBoundGeoType = none := rfl

theorem shaderActivated_bound (s : St) :
    (shaderActivated s).currentBoundGeoType = none := rfl

theorem shaderDeactivated_bound (s : St) :
    (shaderDeactivated s).currentBoundGeoType = none := rfl

/-! ## The evictor's scan computes a strict minimum below the clock -/

theorem scanEntries_eq_foldl (dom : String → Bool)
    (gm : List (String × Option Geometry)) (acc : Nat × Option Geometry) :
    scanEntries dom gm acc = (gm.filterMap (fun p => p.2)).foldl (evStep dom) acc := by
  induction gm generalizing acc with
  | nil => rfl
  | cons p rest ih =>
    obtain ⟨k, og⟩ := p
    cases og with
    | none => simp [scanEntries, List.filterMap_cons, ih]
    | some g => simp [scanEntries, List.filterMap_cons, ih]

theorem scanMaps_eq_foldl (dom : String → Bool) (ms : List (String × GeoMap))
    (acc : Nat × Option Geometry) :
    scanMaps dom ms acc = (allGeos ms).foldl (evStep dom) acc := by
  induction ms generalizing acc with
  | nil => rfl
  | cons p rest ih =>
    obtain ⟨k, gm⟩ := p
    simp [scanMaps, allGeos, ih, scanEntries_eq_foldl, List.foldl_append]

theorem foldl_evStep_spec (dom : String → Bool) (tm : Nat) (L : List Geometry) :
    ∀ acc : Nat × Option Geometry,
      acc.1 ≤ tm →
      (acc.2 = none → acc.1 = tm) →
      (∀ e, acc.2 = some e → isCand dom tm e = true ∧ e.lastUsed = acc.1) →
      (L.foldl (evStep dom) acc).1 ≤ acc.1 ∧
      ((L.foldl (evStep dom) acc).2 = none →
         acc.2 = none ∧ (L.foldl (evStep dom) acc).1 = tm ∧
         ∀ g ∈ L, isCand dom tm g = false) ∧
      (∀ e, (L.foldl (evStep dom) acc).2 = some e →
         isCand dom tm e = true ∧ e.lastUsed = (L.foldl (evStep dom) acc).1 ∧
         (e ∈ L ∨ acc.2 = some e) ∧
         ∀ g ∈ L, isCand dom tm g = true →
           (L.foldl (evStep dom) acc).1 ≤ g.lastUsed) := by
  induction L with
  | nil =>
    intro acc h1 h2 h3
    refine ⟨le_refl _, ?_, ?_⟩
    · intro hnone
      exact ⟨hnone, h2 hnone, by simp⟩
    · intro e he
      obtain ⟨c1, c2⟩ := h3 e he
      exact ⟨c1, c2, Or.inr he, by simp⟩
  | cons g rest ih =>
    intro acc h1 h2 h3
    rw [List.foldl_cons]
    by_cases hc : g.lastUsed < acc.1 ∧ dom g.canvasId = true
    · have hstep : evStep dom acc g = (g.lastUsed, some g) := by
        simp [evStep, hc]
      rw [hstep]
      have hgcand : isCand dom tm g = true := by
        simp [isCand]
        exact ⟨hc.2, lt_of_lt_of_le hc.1 h1⟩
      obtain ⟨m1, m2, m3⟩ := ih (g.lastUsed, some g)
        (le_of_lt (lt_of_lt_of_le hc.1 h1))
        (fun h => Option.noConfusion h)
        (by intro e he; cases he; exact ⟨hgcand, rfl⟩)
      refine ⟨le_trans m1 (le_of_lt hc.1), ?_, ?_⟩
      · intro hnone
        exact absurd (m2 hnone).1 (fun h => Option.noConfusion h)
      · intro e he
        obtain ⟨c1, c2, c3, c4⟩ := m3 e he
        refine ⟨c1, c2, ?_, ?_⟩
        · rcases c3 with h | h
          · exact Or.inl (List.mem_cons_of_mem _ h)
          · cases h
            exact Or.inl (List.mem_cons_self _ _)
        · intro g2 hg2 hcand2
          rcases List.mem_cons.mp hg2 with h | h
          · subst h
            exact m1
          · exact c4 g2 h hcand2
    · have hstep : evStep dom acc g = acc := by
        simp only [evStep, ite_eq_right_iff]
        intro hx
        exact absurd hx hc
      rw [hstep]
      obtain ⟨m1, m2, m3⟩ := ih acc h1 h2 h3
      refine ⟨m1, ?_, ?_⟩
      · intro hnone
        obtain ⟨ha, hb2, hc2⟩ := m2 hnone
        refine ⟨ha, hb2, ?_⟩
        intro g2 hg2
        rcases List.mem_cons.mp hg2 with h | h
        · subst h
          cases hdom : dom g2.canvasId with
          | false => simp [isCand, hdom]
          | true =>
            have hnl : ¬ g2.lastUsed < acc.1 := fun hlt => hc ⟨hlt, hdom⟩
            rw [h2 ha] at hnl
            simp [isCand, hdom, hnl]
        · exact hc2 g2 h
      · intro e he
        obtain ⟨c1, c2, c3, c4⟩ := m3 e he
        refine ⟨c1, c2, ?_, ?_⟩
        · rcases c3 with h | h
          · exact Or.inl (List.mem_cons_of_mem _ h)
          · exact Or.inr h
        · intro g2 hg2 hcand2
          rcases List.mem_cons.mp hg2 with h | h
          · subst h
            have hdom : dom g2.canvasId = true := by
              simp [isCand] at hcand2
              exact hcand2.1
            have hnl : ¬ g2.lastUsed < acc.1 := fun hlt => hc ⟨hlt, hdom⟩
            exact le_trans m1 (Nat.le_of_not_lt hnl)
          · exact c4 g2 h hcand2

theorem scanMaps_none (dom : String → Bool) (s : St)
    (h : (scanMaps dom s.geoMaps (s.time, none)).2 = none) :
    ∀ g ∈ allGeos s.geoMaps, isCand dom s.time g = false := by
  have hs := foldl_evStep_spec dom s.time (allGeos s.geoMaps) (s.time, none)
    (le_refl _) (fun _ => rfl) (fun e he => Option.noConfusion he)
  rw [scanMaps_eq_foldl] at h
  exact (hs.2.1 h).2.2

theorem scanMaps_some (dom : String → Bool) (s : St) (e : Geometry)
    (h : (scanMaps dom s.geoMaps (s.time, none)).2 = some e) :
    isCand dom s.time e = true ∧ e ∈ allGeos s.geoMaps ∧
      ∀ g ∈ allGeos s.geoMaps, isCand dom s.time g = true →
        e.lastUsed ≤ g.lastUsed := by
  have hs := foldl_evStep_spec dom s.time (allGeos s.geoMaps) (s.time, none)
    (le_refl _) (fun _ => rfl) (fun e he => Option.noConfusion he)
  rw [scanMaps_eq_foldl] at h
  obtain ⟨c1, c2, c3, c4⟩ := hs.2.2 e h
  refine ⟨c1, ?_, ?_⟩
  · rcases c3 with h3 | h3
    · exact h3
    · exact Option.noConfusion h3
  · intro g hg hcand
    rw [c2]
    exact c4 g hg hcand

/-! ## Allocation failure restores the GPU liveness list -/

theorem catchDestroy_live (g : Gpu) (bs : List Nat) :
    (catchDestroy g bs).live = bs.foldl (fun l b => l.erase b) g.live := by
  induction bs generalizing g with
  | nil => rfl
  | cons b rest ih =>
    show (catchDestroy (g.destroyBuf b) rest).live = _
    rw [ih]
    rfl

theorem foldl_erase_restore (bs : List Nat) : ∀ L M : List Nat, bs.Nodup →
    M = bs.reverse ++ L → bs.foldl (fun l b => l.erase b) M = L := by
  induction bs with
  | nil =>
    intro L M _ hM
    subst hM
    rfl
  | cons b rest ih =>
    intro L M h hM
    subst hM
    have hb : b ∉ rest := (List.nodup_cons.mp h).1
    have hbr : b ∉ rest.reverse := by
      rw [List.mem_reverse]
      exact hb
    simp only [List.reverse_cons, List.foldl_cons, List.append_assoc,
      List.singleton_append]
    rw [List.erase_append_right _ hbr, List.erase_cons_head]
    exact ih L _ (List.nodup_cons.mp h).2 rfl

theorem createArrayBuffer_ok (ok : Nat → Bool) (g g' : Gpu) (b : Nat)
    (h : createArrayBuffer ok g = .ok (b, g')) :
    b = g.nextId ∧ g' = ⟨g.nextId + 1, g.nextId :: g.live⟩ := by
  unfold createArrayBuffer at h
  split at h
  · rw [Except.ok.injEq, Prod.mk.injEq] at h
    exact ⟨h.1.symm, h.2.symm⟩
  · exact Except.noConfusion h

theorem allocOpt_ok (ok : Nat → Bool) (c : Bool) (g g' : Gpu) (o : Option Nat)
    (h : allocOpt ok c g = .ok (o, g')) :
    (o = none ∧ g' = g) ∨
      (o = some g.nextId ∧ g' = ⟨g.nextId + 1, g.nextId :: g.live⟩) := by
  unfold allocOpt at h
  split at h
  · split at h
    next b g2 heq =>
      rw [Except.ok.injEq, Prod.mk.injEq] at h
      obtain ⟨hb, hg⟩ := createArrayBuffer_ok ok g g2 b heq
      exact Or.inr ⟨by rw [← h.1, hb], by rw [← h.2, hg]⟩
    next e heq =>
      exact Except.noConfusion h
  · rw [Except.ok.injEq, Prod.mk.injEq] at h
    exact Or.inl ⟨h.1.symm, h.2.symm⟩

theorem allocRestore (g0 gX : Gpu) (bufs : List Nat)
    (hshape : gX.live = bufs.reverse ++ g0.live) (hnodup : bufs.Nodup) :
    (catchDestroy gX bufs).live = g0.live := by
  rw [catchDestroy_live]
  exact foldl_erase_restore _ _ _ hnodup hshape

theorem allocAll_error_live (ok : Nat → Bool) (data : GeoData) (g0 g : Gpu)
    (bufs : List Nat) (h : allocAll ok data g0 = .error (g, bufs)) :
    (catchDestroy g bufs).live = g0.live := by
  unfold allocAll at h
  split at h
  rw [Except.error.injEq, Prod.mk.injEq] at h
  obtain ⟨h1, h2⟩ := h
  subst h1
  subst h2
  rfl
  rename_i v g1 heq1
  obtain ⟨rfl, rfl⟩ := createArrayBuffer_ok ok g0 g1 v heq1
  split at h
  rw [Except.error.injEq, Prod.mk.injEq] at h
  obtain ⟨h1, h2⟩ := h
  subst h1
  subst h2
  exact allocRestore g0 _ _ rfl (by simp)
  rename_i nrm g2 heq2
  rcases allocOpt_ok _ _ _ _ _ heq2 with ⟨rfl, rfl⟩ | ⟨rfl, rfl⟩ <;>
  (split at h
   rw [Except.error.injEq, Prod.mk.injEq] at h
   obtain ⟨h1, h2⟩ := h
   subst h1
   subst h2
   exact allocRestore g0 _ _ rfl (by simp [optCons] <;> omega)
   rename_i uv g3 heq3
   rcases allocOpt_ok _ _ _ _ _ heq3 with ⟨rfl, rfl⟩ | ⟨rfl, rfl⟩ <;>
   (split at h
    rw [Except.error.injEq, Prod.mk.injEq] at h
    obtain ⟨h1, h2⟩ := h
    subst h1
    subst h2
    exact allocRestore g0 _ _ rfl (by simp [optCons] <;> omega)
    rename_i uv2 g4 heq4
    rcases allocOpt_ok _ _ _ _ _ heq4 with ⟨rfl, rfl⟩ | ⟨rfl, rfl⟩ <;>
    (split at h
     rw [Except.error.injEq, Prod.mk.injEq] at h
     obtain ⟨h1, h2⟩ := h
     subst h1
     subst h2
     exact allocRestore g0 _ _ rfl (by simp [optCons] <;> omega)
     rename_i idx g5 heq5
     exact Except.noConfusion h)))

theorem allocAll_ok_live (ok : Nat → Bool) (data : GeoData) (g0 : Gpu)
    (out : AllocOut) (h : allocAll ok data g0 = .ok out) :
    (catchDestroy out.gpu (allBufs out)).live = g0.live := by
  unfold allocAll at h
  split at h
  exact Except.noConfusion h
  rename_i v g1 heq1
  obtain ⟨rfl, rfl⟩ := createArrayBuffer_ok ok g0 g1 v heq1
  split at h
  exact Except.noConfusion h
  rename_i nrm g2 heq2
  rcases allocOpt_ok _ _ _ _ _ heq2 with ⟨rfl, rfl⟩ | ⟨rfl, rfl⟩ <;>
  (split at h
   exact Except.noConfusion h
   rename_i uv g3 heq3
   rcases allocOpt_ok _ _ _ _ _ heq3 with ⟨rfl, rfl⟩ | ⟨rfl, rfl⟩ <;>
   (split at h
    exact Except.noConfusion h
    rename_i uv2 g4 heq4
    rcases allocOpt_ok _ _ _ _ _ heq4 with ⟨rfl, rfl⟩ | ⟨rfl, rfl⟩ <;>
    (split at h
     exact Except.noConfusion h
     rename_i idx g5 heq5
     obtain ⟨rfl, rfl⟩ := createArrayBuffer_ok _ _ _ _ heq5
     rw [Except.ok.injEq] at h
     subst h
     exact allocRestore g0 _ _ rfl (by simp [allBufs, optCons] <;> omega))))

/-! ## createGeometry: error and success characterizations -/

theorem createGeometry_error (ok : Nat → Bool) (tOpt : Option String)
    (data : GeoData) (s s' : St) (e : Err)
    (h : createGeometry ok tOpt data s = (s', .error e)) :
    s'.geoMaps = s.geoMaps ∧ s'.gpu.live = s.gpu.live ∧ s'.canvas = s.canvas ∧
      s'.currentGeoMap = s.currentGeoMap ∧
      s'.currentBoundGeoType = s.currentBoundGeoType ∧ s'.time = s.time ∧
      s'.log = s.log := by
  unfold createGeometry at h
  split at h
  · -- type resolution raised (null current map)
    rw [Prod.mk.injEq] at h
    obtain ⟨h1, _⟩ := h
    subst h1
    exact ⟨rfl, rfl, rfl, rfl, rfl, rfl, rfl⟩
  · split at h
    · -- data.primitive absent
      rw [Prod.mk.injEq] at h
      obtain ⟨h1, _⟩ := h
      subst h1
      exact ⟨rfl, rfl, rfl, rfl, rfl, rfl, rfl⟩
    · split at h
      · -- data.primitive the empty string
        rw [Prod.mk.injEq] at h
        obtain ⟨h1, _⟩ := h
        subst h1
        exact ⟨rfl, rfl, rfl, rfl, rfl, rfl, rfl⟩
      · split at h
        · -- canvas.context dereference with no canvas
          rw [Prod.mk.injEq] at h
          obtain ⟨h1, _⟩ := h
          subst h1
          exact ⟨rfl, rfl, rfl, rfl, rfl, rfl, rfl⟩
        · split at h
          · -- an allocation threw; the catch block restored the buffers
            rename_i g bufs heq
            rw [Prod.mk.injEq] at h
            obtain ⟨h1, _⟩ := h
            subst h1
            exact ⟨rfl, allocAll_error_live ok data s.gpu g bufs heq, rfl, rfl,
              rfl, rfl, rfl⟩
          · split at h
            · -- unrecognized primitive string, thrown while building the record
              rename_i xA out heqA xP heqP
              rw [Prod.mk.injEq] at h
              obtain ⟨h1, _⟩ := h
              subst h1
              exact ⟨rfl, allocAll_ok_live ok data s.gpu out heqA, rfl, rfl, rfl,
                rfl, rfl⟩
            · split at h
              · -- null current map on the final store
                rename_i xA out heqA xP p heqP xM heqM
                rw [Prod.mk.injEq] at h
                obtain ⟨h1, _⟩ := h
                subst h1
                exact ⟨rfl, allocAll_ok_live ok data s.gpu out heqA, rfl, rfl,
                  rfl, rfl, rfl⟩
              · -- success arm: contradicts the error result
                rw [Prod.mk.injEq] at h
                exact Except.noConfusion h.2

theorem resolveType_ok (tOpt : Option String) (s : St) (type : String)
    (h : resolveType tOpt s = .ok type) :
    (∀ t0, tOpt = some t0 → t0.isEmpty = false → type = t0) ∧
    ((tOpt = none ∨ tOpt = some "") →
      ∃ mid, s.currentGeoMap = some mid ∧
        type = createKeyForMap ((lookupMap s.geoMaps mid).getD []) "type") := by
  unfold resolveType at h
  split at h
  · -- a type argument was supplied
    rename_i t
    split at h
    · -- ... but it is the empty string: a key is generated
      rename_i he
      split at h
      · exact Except.noConfusion h
      · rename_i xM cid heqM
        have hty := (Except.ok.inj h).symm
        constructor
        · intro t0 ht0 hne
          have ht := Option.some.inj ht0
          subst ht
          rw [hne] at he
          exact Bool.noConfusion he
        · intro _
          exact ⟨cid, heqM, hty⟩
    · -- truthy supplied type: returned as-is
      rename_i he
      have hty := (Except.ok.inj h).symm
      constructor
      · intro t0 ht0 _
        have ht := Option.some.inj ht0
        subst ht
        exact hty
      · intro hor
        rcases hor with h2 | h2
        · exact Option.noConfusion h2
        · have ht : t = "" := Option.some.inj h2
          subst ht
          exact absurd (by decide) he
  · -- no type argument: a key is generated
    split at h
    · exact Except.noConfusion h
    · rename_i xM cid heqM
      have hty := (Except.ok.inj h).symm
      constructor
      · intro t0 ht0 _
        exact Option.noConfusion ht0
      · intro _
        exact ⟨cid, heqM, hty⟩

theorem createGeometry_ok_spec (ok : Nat → Bool) (tOpt : Option String)
    (data : GeoData) (s s' : St) (t : String)
    (h : createGeometry ok tOpt data s = (s', .ok t)) :
    resolveType tOpt s = .ok t ∧
    ∃ mid geo, s.currentGeoMap = some mid ∧ geo.lastUsed = s.time ∧
      geo.type = t ∧ s'.geoMaps = writeSlot s.geoMaps mid t (some geo) ∧
      s'.currentGeoMap = s.currentGeoMap ∧
      s'.currentBoundGeoType = s.currentBoundGeoType ∧
      s'.time = s.time ∧ s'.canvas = s.canvas ∧ s'.log = s.log := by
  unfold createGeometry at h
  split at h
  · rw [Prod.mk.injEq] at h
    exact Except.noConfusion h.2
  · rename_i xR type heqR
    split at h
    · rw [Prod.mk.injEq] at h
      exact Except.noConfusion h.2
    · rename_i xD prim heqD
      split at h
      · rw [Prod.mk.injEq] at h
        exact Except.noConfusion h.2
      · rename_i hprimNE
        split at h
        · rw [Prod.mk.injEq] at h
          exact Except.noConfusion h.2
        · rename_i xC cid heqC
          split at h
          · rw [Prod.mk.injEq] at h
            exact Except.noConfusion h.2
          · rename_i xA out heqA
            split at h
            · rw [Prod.mk.injEq] at h
              exact Except.noConfusion h.2
            · rename_i xG p heqG
              split at h
              · rw [Prod.mk.injEq] at h
                exact Except.noConfusion h.2
              · rename_i xM mid heqM
                rw [Prod.mk.injEq] at h
                obtain ⟨h1, h2⟩ := h
                have hty : type = t := Except.ok.inj h2
                subst h1
                refine ⟨by rw [heqR, hty], mid,
                  { primitive := p, type := t, lastUsed := s.time,
                    canvasId := cid, vertexBuf := out.vertexBuf,
                    normalBuf := out.normalBuf, indexBuf := out.indexBuf,
                    uvBuf := out.uvBuf, uvBuf2 := out.uvBuf2 },
                  heqM, rfl, rfl, by rw [hty], rfl, rfl, rfl, rfl, rfl⟩

theorem createGeometry_ok_test (ok : Nat → Bool) (tOpt : Option String)
    (data : GeoData) (s s' : St) (t : String)
    (h : createGeometry ok tOpt data s = (s', .ok t)) :
    testGeometryExists s' t = .ok true := by
  obtain ⟨_, mid, geo, hmid, _, _, hmaps, hcgm, _, _, _, _⟩ :=
    createGeometry_ok_spec ok tOpt data s s' t h
  rw [testGeometryExists_ok_true]
  refine ⟨mid, by rw [hcgm]; exact hmid, ?_⟩
  rw [hmaps, readSlot_writeSlot_self]
  rfl

theorem BoundInv_createGeometry (ok : Nat → Bool) (tOpt : Option String)
    (data : GeoData) (s : St) (h : BoundInv s) :
    BoundInv (createGeometry ok tOpt data s).1 := by
  rcases hres : createGeometry ok tOpt data s with ⟨s', r⟩
  cases r with
  | error e =>
    obtain ⟨hg, _, _, hcgm, hbound, _, _⟩ :=
      createGeometry_error ok tOpt data s s' e hres
    exact BoundInv_congr s s' hbound hcgm hg h
  | ok t =>
    obtain ⟨_, mid, geo, hmid, _, _, hmaps, hcgm, hbound, _, _, _⟩ :=
      createGeometry_ok_spec ok tOpt data s s' t hres
    rw [BoundInv_def]
    intro u hu
    have h1 := (BoundInv_def s).mp h u (by rw [← hbound]; exact hu)
    rw [testGeometryExists_ok_true] at h1 ⊢
    obtain ⟨mid2, hmid2, hsome⟩ := h1
    refine ⟨mid2, by rw [hcgm]; exact hmid2, ?_⟩
    rw [hmaps]
    by_cases hq : mid = mid2 ∧ t = u
    · obtain ⟨rfl, rfl⟩ := hq
      rw [readSlot_writeSlot_self]
      rfl
    · rw [readSlot_writeSlot_ne _ _ _ _ _ _ (not_and_or.mp hq)]
      exact hsome

/-! ## drawGeometry: error and success characterizations -/

theorem drawGeometry_ok_spec (t : String) (s s' : St)
    (h : drawGeometry t s = (s', none)) :
    ∃ mid geo, s.currentGeoMap = some mid ∧ s.canvas.isSome = true ∧
      readSlot s.geoMaps mid t = some geo ∧
      s'.geoMaps = writeSlot s.geoMaps mid t (some { geo with lastUsed := s.time }) ∧
      s'.currentBoundGeoType = some t ∧
      s'.currentGeoMap = s.currentGeoMap ∧ s'.canvas = s.canvas ∧
      s'.time = s.time ∧ s'.gpu = s.gpu ∧
      s'.log = s.log ++ [Ev.geometryUpdated (some geo), Ev.shaderActivateReq] ++
        (if s.currentBoundGeoType = some t then []
         else [Ev.geometryExported { geo with lastUsed := s.time }]) := by
  unfold drawGeometry at h
  split at h
  · rw [Prod.mk.injEq] at h
    exact Option.noConfusion h.2
  · rename_i xC c heqC
    split at h
    · rw [Prod.mk.injEq] at h
      exact Option.noConfusion h.2
    · rename_i xM mid heqM
      simp only [fire] at h
      split at h
      · rw [Prod.mk.injEq] at h
        exact Option.noConfusion h.2
      · rename_i xG geo heqG
        split at h
        · -- bind elided: the type was already bound
          rename_i hb0
          have hb : s.currentBoundGeoType = some t := hb0
          rw [Prod.mk.injEq] at h
          obtain ⟨h1, _⟩ := h
          subst h1
          refine ⟨mid, geo, heqM, ?_, heqG, rfl, hb, rfl, rfl, rfl, rfl, ?_⟩
          · rw [heqC]
            rfl
          · rw [if_pos hb, heqG]
            simp
        · -- export, bind, and record the bound type
          rename_i hb0
          have hb : ¬s.currentBoundGeoType = some t := hb0
          rw [Prod.mk.injEq] at h
          obtain ⟨h1, _⟩ := h
          subst h1
          refine ⟨mid, geo, heqM, ?_, heqG, rfl, rfl, rfl, rfl, rfl, rfl, ?_⟩
          · rw [heqC]
            rfl
          · rw [if_neg hb, heqG]
            simp

theorem drawGeometry_error_spec (t : String) (s s' : St) (e : Err)
    (h : drawGeometry t s = (s', some e)) :
    s'.geoMaps = s.geoMaps ∧ s'.currentBoundGeoType = s.currentBoundGeoType ∧
      s'.currentGeoMap = s.currentGeoMap ∧ s'.canvas = s.canvas ∧
      s'.time = s.time ∧ s'.gpu = s.gpu := by
  unfold drawGeometry at h
  split at h
  · rw [Prod.mk.injEq] at h
    obtain ⟨h1, _⟩ := h
    subst h1
    exact ⟨rfl, rfl, rfl, rfl, rfl, rfl⟩
  · rename_i xC c heqC
    split at h
    · rw [Prod.mk.injEq] at h
      obtain ⟨h1, _⟩ := h
      subst h1
      exact ⟨rfl, rfl, rfl, rfl, rfl, rfl⟩
    · rename_i xM mid heqM
      simp only [fire] at h
      split at h
      · -- record absent: geo.lastUsed dereference throws after the two fires
        rw [Prod.mk.injEq] at h
        obtain ⟨h1, _⟩ := h
        subst h1
        exact ⟨rfl, rfl, rfl, rfl, rfl, rfl⟩
      · rename_i xG geo heqG
        split at h
        · rw [Prod.mk.injEq] at h
          exact Option.noConfusion h.2
        · rw [Prod.mk.injEq] at h
          exact Option.noConfusion h.2

theorem BoundInv_drawGeometry (t : String) (s : St) (h : BoundInv s) :
    BoundInv (drawGeometry t s).1 := by
  rcases hres : drawGeometry t s with ⟨s', r⟩
  cases r with
  | some e =>
    obtain ⟨hg, hb, hm, _, _, _⟩ := drawGeometry_error_spec t s s' e hres
    exact BoundInv_congr s s' hb hm hg h
  | none =>
    obtain ⟨mid, geo, hmid, _, _, hmaps, hbound, hcgm, _, _, _, _⟩ :=
      drawGeometry_ok_spec t s s' hres
    rw [BoundInv_def]
    intro u hu
    rw [hbound] at hu
    have ht : u = t := (Option.some.inj hu).symm
    subst ht
    rw [testGeometryExists_ok_true]
    exact ⟨mid, by rw [hcgm]; exact hmid,
      by rw [hmaps, readSlot_writeSlot_self]; rfl⟩

/-! ## Invariant preservation for evictor and reset; persistence lemmas -/

theorem BoundInv_runEvictor (dom : String → Bool) (s : St) (h : BoundInv s) :
    BoundInv (runEvictor dom s).1 := by
  unfold runEvictor
  split
  · exact BoundInv_destroyGeometry _ _ _ h
  · exact h

theorem BoundInv_destroyKeys (dom : String → Bool) (cid : String)
    (keys : List String) :
    ∀ s, BoundInv s → BoundInv (destroyKeys dom cid keys s).1 := by
  induction keys with
  | nil => intro s h; exact h
  | cons k rest ih =>
    intro s h
    unfold destroyKeys
    split
    · exact ih _ (BoundInv_destroyGeometry _ _ _ h)
    · exact h

theorem BoundInv_resetMaps (dom : String → Bool) (cids : List String) :
    ∀ s, BoundInv s → BoundInv (resetMaps dom cids s).1 := by
  induction cids with
  | nil => intro s h; exact h
  | cons cid rest ih =>
    intro s h
    simp only [resetMaps]
    split
    · rename_i s1 heq
      have h1 := BoundInv_destroyKeys dom cid
        (List.map Prod.fst ((lookupMap s.geoMaps cid).getD [])) s h
      rw [heq] at h1
      exact ih _ h1
    · rename_i s1 e heq
      have h1 := BoundInv_destroyKeys dom cid
        (List.map Prod.fst ((lookupMap s.geoMaps cid).getD [])) s h
      rw [heq] at h1
      exact h1

theorem reset_ok_spec (dom : String → Bool) (s s' : St)
    (h : reset dom s = (s', none)) :
    s'.canvas = none ∧ s'.geoMaps = [] ∧ s'.currentGeoMap = none ∧
      s'.currentBoundGeoType = none := by
  unfold reset at h
  split at h
  · rw [Prod.mk.injEq] at h
    obtain ⟨h1, _⟩ := h
    subst h1
    exact ⟨rfl, rfl, rfl, rfl⟩
  · rw [Prod.mk.injEq] at h
    exact Option.noConfusion h.2

theorem BoundInv_reset (dom : String → Bool) (s : St) (h : BoundInv s) :
    BoundInv (reset dom s).1 := by
  unfold reset
  split
  · exact BoundInv_of_none _ rfl
  · rename_i s1 e heq
    have h1 := BoundInv_resetMaps dom (List.map Prod.fst s.geoMaps) s h
    rw [heq] at h1
    exact h1

theorem BoundInv_sceneActivated (s : St) : BoundInv (sceneActivated s) :=
  BoundInv_of_none _ rfl

theorem BoundInv_canvasActivated (cid : String) (s : St) :
    BoundInv (canvasActivated cid s) :=
  BoundInv_of_none _ rfl

theorem BoundInv_canvasDeactivated (s : St) : BoundInv (canvasDeactivated s) :=
  BoundInv_of_none _ rfl

theorem BoundInv_shaderActivated (s : St) : BoundInv (shaderActivated s) :=
  BoundInv_of_none _ rfl

theorem BoundInv_shaderDeactivated (s : St) : BoundInv (shaderDeactivated s) :=
  BoundInv_of_none _ rfl

theorem test_createGeometry (ok : Nat → Bool) (tOpt : Option String)
    (data : GeoData) (s : St) (t : String)
    (h : testGeometryExists s t = .ok true) :
    testGeometryExists (createGeometry ok tOpt data s).1 t = .ok true := by
  rcases hres : createGeometry ok tOpt data s with ⟨s', r⟩
  cases r with
  | error e =>
    obtain ⟨hg, _, _, hcgm, _, _, _⟩ :=
      createGeometry_error ok tOpt data s s' e hres
    rw [test_congr s s' t hcgm hg]
    exact h
  | ok u =>
    obtain ⟨_, mid, geo, hmid, _, _, hmaps, hcgm, _, _, _, _⟩ :=
      createGeometry_ok_spec ok tOpt data s s' u hres
    rw [testGeometryExists_ok_true] at h ⊢
    obtain ⟨mid2, hmid2, hsome⟩ := h
    refine ⟨mid2, by rw [hcgm]; exact hmid2, ?_⟩
    rw [hmaps]
    by_cases hq : mid = mid2 ∧ u = t
    · obtain ⟨rfl, rfl⟩ := hq
      rw [readSlot_writeSlot_self]
      rfl
    · rw [readSlot_writeSlot_ne _ _ _ _ _ _ (not_and_or.mp hq)]
      exact hsome

theorem test_drawGeometry (u : String) (s : St) (t : String)
    (h : testGeometryExists s t = .ok true) :
    testGeometryExists (drawGeometry u s).1 t = .ok true := by
  rcases hres : drawGeometry u s with ⟨s', r⟩
  cases r with
  | some e =>
    obtain ⟨hg, _, hcgm, _, _, _⟩ := drawGeometry_error_spec u s s' e hres
    rw [test_congr s s' t hcgm hg]
    exact h
  | none =>
    obtain ⟨mid, geo, hmid, _, _, hmaps, _, hcgm, _, _, _, _⟩ :=
      drawGeometry_ok_spec u s s' hres
    rw [testGeometryExists_ok_true] at h ⊢
    obtain ⟨mid2, hmid2, hsome⟩ := h
    refine ⟨mid2, by rw [hcgm]; exact hmid2, ?_⟩
    rw [hmaps]
    by_cases hq : mid = mid2 ∧ u = t
    · obtain ⟨rfl, rfl⟩ := hq
      rw [readSlot_writeSlot_self]
      rfl
    · rw [readSlot_writeSlot_ne _ _ _ _ _ _ (not_and_or.mp hq)]
      exact hsome

theorem test_destroyGeometry (dom : String → Bool) (geo : Geometry) (s : St)
    (t : String) (h : testGeometryExists s t = .ok true)
    (hne : geo.type ≠ t ∨ s.currentGeoMap ≠ some geo.canvasId) :
    testGeometryExists (destroyGeometry dom geo s) t = .ok true := by
  rw [testGeometryExists_ok_true] at h ⊢
  obtain ⟨mid, hmid, hsome⟩ := h
  refine ⟨mid, by rw [destroyGeometry_currentGeoMap]; exact hmid, ?_⟩
  have hcond : geo.canvasId ≠ mid ∨ geo.type ≠ t := by
    rcases hne with h1 | h1
    · exact Or.inr h1
    · left
      intro he
      exact h1 (by rw [hmid, he])
  rw [readSlot_destroyGeometry dom geo s mid t hcond]
  exact hsome

theorem allocAll_ok_of_ok (ok : Nat → Bool) (data : GeoData) (g0 : Gpu)
    (hok : ∀ n, ok n = true) : ∃ out, allocAll ok data g0 = .ok out := by
  have hc : ∀ g : Gpu, createArrayBuffer ok g =
      .ok (g.nextId, ⟨g.nextId + 1, g.nextId :: g.live⟩) := by
    intro g
    unfold createArrayBuffer
    rw [hok g.nextId]
    rfl
  have hco : ∀ (c : Bool) (g : Gpu), ∃ o g2, allocOpt ok c g = .ok (o, g2) := by
    intro c g
    cases c with
    | false => exact ⟨none, g, rfl⟩
    | true =>
      refine ⟨some g.nextId, ⟨g.nextId + 1, g.nextId :: g.live⟩, ?_⟩
      unfold allocOpt
      rw [if_pos rfl, hc g]
  unfold allocAll
  simp only [hc g0]
  obtain ⟨o1, g1, h1⟩ := hco (nonEmptyArr data.normals)
    ⟨g0.nextId + 1, g0.nextId :: g0.live⟩
  simp only [h1]
  obtain ⟨o2, g2, h2⟩ := hco (nonEmptyArr data.uv) g1
  simp only [h2]
  obtain ⟨o3, g3, h3⟩ := hco (nonEmptyArr data.uv2) g2
  simp only [h3]
  simp only [hc g3]
  exact ⟨_, rfl⟩

/-! ## Claim theorems -/

/-- C1: the claim says `destroyGeometry`, on a record whose canvas still
exists, destroys each present buffer (vertex, normal, index, uv, uv2).  The
code (line 120) destroys the index buffer only when a normal buffer is
present: on the record `geoA` (vertex and index buffers, no normals, canvas
alive, slot nulled as required) the vertex buffer is destroyed but the
mandatory index buffer is leaked. -/
theorem C1_indexBuf_leak :
    domAll geoA.canvasId = true ∧ geoA.normalBuf = none ∧
    geoA.vertexBuf ∉ (destroyGeometry domAll geoA sC1).gpu.live ∧
    geoA.indexBuf ∈ (destroyGeometry domAll geoA sC1).gpu.live ∧
    readSlot (destroyGeometry domAll geoA sC1).geoMaps "S1" "A" = none := by
  decide

/-- C2 counterexample: in `sAB` the records "A" and "B" exist and their
canvas is alive, so per the claim one eviction must destroy the
minimum-`lastUsed` record and report success; the code reports failure and
destroys nothing, because both records have `lastUsed` equal to the current
clock and the scan only admits records strictly below it. -/
theorem C2_cex_record_at_current_tick :
    geoA ∈ allGeos sAB.geoMaps ∧ domAll geoA.canvasId = true ∧
    runEvictor domAll sAB = (sAB, false) := by
  decide

/-- C2 (amended): one invocation of the eviction callback selects and
destroys, among all records whose canvas still exists AND whose `lastUsed`
is strictly below the current clock, one with the minimum `lastUsed`, and
reports success; when no such record exists it destroys nothing and reports
failure. -/
theorem C2_evictor_lru (dom : String → Bool) (s : St) :
    (cands dom s = [] → runEvictor dom s = (s, false)) ∧
    (cands dom s ≠ [] → ∃ g, isCand dom s.time g = true ∧
      g ∈ allGeos s.geoMaps ∧
      (∀ g2 ∈ allGeos s.geoMaps, isCand dom s.time g2 = true →
        g.lastUsed ≤ g2.lastUsed) ∧
      runEvictor dom s = (destroyGeometry dom g s, true)) := by
  constructor
  · intro hnil
    unfold runEvictor
    cases hscan : (scanMaps dom s.geoMaps (s.time, none)).2 with
    | none => rfl
    | some g =>
      obtain ⟨hcand, hmem, _⟩ := scanMaps_some dom s g hscan
      have : g ∈ cands dom s := List.mem_filter.mpr ⟨hmem, hcand⟩
      rw [hnil] at this
      exact absurd this (List.not_mem_nil g)
  · intro hne
    cases hscan : (scanMaps dom s.geoMaps (s.time, none)).2 with
    | none =>
      exfalso
      apply hne
      apply List.filter_eq_nil_iff.mpr
      intro g hg
      rw [scanMaps_none dom s hscan g hg]
      exact Bool.false_ne_true
    | some g =>
      obtain ⟨hcand, hmem, hmin⟩ := scanMaps_some dom s g hscan
      refine ⟨g, hcand, hmem, hmin, ?_⟩
      unfold runEvictor
      rw [hscan]

/-- C2 witness: at the next clock tick after drawing, both records of `sAB`
are candidates, and the evictor destroys a minimal one and reports
success. -/
theorem C2_evictor_lru_witness :
    ∃ g, isCand domAll (timeUpdated 1 sABdrawB).time g = true ∧
      g ∈ allGeos (timeUpdated 1 sABdrawB).geoMaps ∧
      (∀ g2 ∈ allGeos (timeUpdated 1 sABdrawB).geoMaps,
        isCand domAll (timeUpdated 1 sABdrawB).time g2 = true →
        g.lastUsed ≤ g2.lastUsed) ∧
      runEvictor domAll (timeUpdated 1 sABdrawB) =
        (destroyGeometry domAll g (timeUpdated 1 sABdrawB), true) :=
  (C2_evictor_lru domAll (timeUpdated 1 sABdrawB)).2 (by decide)

/-- C3: when `createGeometry` raises (in particular when an allocation after
the first throws), every buffer allocated for the call has been destroyed
again (the net GPU liveness list is unchanged) and the caches are left
unmodified: no record, partial or otherwise, is stored. -/
theorem C3_alloc_failure_restores (ok : Nat → Bool) (tOpt : Option String)
    (data : GeoData) (s s' : St) (e : Err)
    (h : createGeometry ok tOpt data s = (s', .error e)) :
    s'.gpu.live = s.gpu.live ∧ s'.geoMaps = s.geoMaps ∧
      s'.currentGeoMap = s.currentGeoMap := by
  obtain ⟨hg, hl, _, hm, _, _, _⟩ := createGeometry_error ok tOpt data s s' e h
  exact ⟨hl, hg, hm⟩

/-- C3 witness: the vertex allocation succeeds, the normal allocation
throws; the state is restored. -/
theorem C3_alloc_failure_restores_witness :
    okFirstOnly 0 = true ∧
    (createGeometry okFirstOnly (some "A") dataN sAct).1.gpu.live =
      sAct.gpu.live ∧
    (createGeometry okFirstOnly (some "A") dataN sAct).1.geoMaps =
      sAct.geoMaps :=
  have r := C3_alloc_failure_restores okFirstOnly (some "A") dataN sAct
    (createGeometry okFirstOnly (some "A") dataN sAct).1 Err.allocFailure
    (by decide)
  ⟨by decide, r.1, r.2.1⟩

/-- C4: a successful `drawGeometry t` leaves `t` as the bound type, and
fires GEOMETRY_EXPORTED exactly when the bound type differed from `t` at
the call: an elided draw adds no export event, a non-elided draw adds
exactly one export event carrying the (freshly touched) record for `t`. -/
theorem C4_bind_elision (t : String) (s s' : St)
    (h : drawGeometry t s = (s', none)) :
    s'.currentBoundGeoType = some t ∧
    (s.currentBoundGeoType = some t → exportEvents s'.log = exportEvents s.log) ∧
    (s.currentBoundGeoType ≠ some t →
      ∃ mid geo, s.currentGeoMap = some mid ∧
        readSlot s.geoMaps mid t = some geo ∧
        exportEvents s'.log = exportEvents s.log ++
          [Ev.geometryExported { geo with lastUsed := s.time }]) := by
  obtain ⟨mid, geo, hmid, _, hslot, _, hbound, _, _, _, _, hlog⟩ :=
    drawGeometry_ok_spec t s s' h
  refine ⟨hbound, ?_, ?_⟩
  · intro hb
    rw [hlog, if_pos hb]
    simp [exportEvents, List.filter_append]
  · intro hb
    refine ⟨mid, geo, hmid, hslot, ?_⟩
    rw [hlog, if_neg hb]
    simp [exportEvents, List.filter_append]

/-- C4 witness: drawing "A" in `sAB` (bound type is "B") re-exports, and
"A" becomes the bound type. -/
theorem C4_bind_elision_witness :
    (drawGeometry "A" sABdrawB).1.currentBoundGeoType = some "A" ∧
    ∃ mid geo, sABdrawB.currentGeoMap = some mid ∧
      readSlot sABdrawB.geoMaps mid "A" = some geo ∧
      exportEvents (drawGeometry "A" sABdrawB).1.log =
        exportEvents sABdrawB.log ++
          [Ev.geometryExported { geo with lastUsed := sABdrawB.time }] :=
  have r := C4_bind_elision "A" sABdrawB (drawGeometry "A" sABdrawB).1
    (by decide)
  ⟨r.1, r.2.2 (by decide)⟩

/-- C5: the claim (and the spec's reset row) is the intent, but the code's
RESET handler calls `destroyGeometry` on every slot of every map, including
slots already nulled by an earlier eviction, and `destroyGeometry(null)`
throws a TypeError at `geo.type`.  In `sEvicted` (reached by create "A",
create "B", draw "B", tick, evict — which nulls the slot of "A") the RESET
handler throws before destroying "B" or discarding any cache: `geoMaps`,
the active canvas and the bound type are all left as they were. -/
theorem C5_reset_throws_after_eviction :
    readSlot sEvicted.geoMaps "S1" "A" = none ∧
    readSlot sEvicted.geoMaps "S1" "B" = some geoB ∧
    (reset domAll sEvicted).2 = some Err.typeError ∧
    (reset domAll sEvicted).1.geoMaps = sEvicted.geoMaps ∧
    (reset domAll sEvicted).1.canvas = some "S1" ∧
    (reset domAll sEvicted).1.currentBoundGeoType = some "B" := by
  decide

/-- C6 counterexample: the claim also asserts that a reset clears the bound
type, but in `sEvicted` (type "B" bound, the slot of "A" already nulled by
eviction) the RESET handler throws before reaching its clearing code and
the bound type survives. -/
theorem C6_cex_reset_leaves_bound :
    sEvicted.currentBoundGeoType = some "B" ∧
    (reset domAll sEvicted).2 = some Err.typeError ∧
    (reset domAll sEvicted).1.currentBoundGeoType = some "B" := by
  decide

/-- C6 (amended): the bound-type invariant — a non-null bound type always
names a record present in the selected cache — is preserved by every
operation and event handler (including a reset that throws midway);
surface and scene (de)activation and shader (de)activation clear the bound
type unconditionally, a reset clears it whenever the handler completes
without throwing, and destroying the bound record clears it. -/
theorem C6_bound_type_invariant (dom : String → Bool) (ok : Nat → Bool)
    (op : Op) (s : St) (h : BoundInv s) :
    BoundInv (step dom ok op s).1 ∧
    ((op = .sceneActivated ∨ (∃ c, op = .canvasActivated c) ∨
        op = .canvasDeactivated ∨ op = .shaderActivated ∨
        op = .shaderDeactivated) →
      (step dom ok op s).1.currentBoundGeoType = none) ∧
    (op = .reset → (step dom ok op s).2 = none →
      (step dom ok op s).1.currentBoundGeoType = none) ∧
    (∀ geo : Geometry, s.currentBoundGeoType = some geo.type →
      (destroyGeometry dom geo s).currentBoundGeoType = none) := by
  refine ⟨?_, ?_, ?_, ?_⟩
  · cases op with
    | timeUpdated t => exact BoundInv_timeUpdated t s h
    | sceneActivated => exact BoundInv_sceneActivated s
    | canvasActivated c => exact BoundInv_canvasActivated c s
    | canvasDeactivated => exact BoundInv_canvasDeactivated s
    | shaderActivated => exact BoundInv_shaderActivated s
    | shaderDeactivated => exact BoundInv_shaderDeactivated s
    | reset => exact BoundInv_reset dom s h
    | evict => exact BoundInv_runEvictor dom s h
    | create tOpt data => exact BoundInv_createGeometry ok tOpt data s h
    | draw t => exact BoundInv_drawGeometry t s h
  · intro hop
    rcases hop with rfl | ⟨c, rfl⟩ | rfl | rfl | rfl <;> rfl
  · intro hop hnone
    subst hop
    have h3 : (reset dom s).2 = none := hnone
    exact (reset_ok_spec dom s (reset dom s).1 (by rw [← h3])).2.2.2
  · intro geo hb
    rw [destroyGeometry_bound, if_pos hb]

/-- C6 witness: the invariant at a concrete state and step. -/
theorem C6_bound_type_invariant_witness :
    BoundInv (step domAll okAll (Op.draw "A") sABdrawB).1 :=
  (C6_bound_type_invariant domAll okAll (Op.draw "A") sABdrawB (by decide)).1

/-- C7: on data whose primitive string is absent, empty, or not one of the
seven recognized kinds, `createGeometry` fails with a configuration error
(NodeConfigExpectedException or InvalidGeometryConfigException), stores no
record (the caches are unmodified) and holds no buffer (the GPU liveness
list is unchanged) — stated for calls made with a selected cache and an
active canvas and with the external allocator succeeding, so that the
failure observed is the configuration error itself. -/
theorem C7_config_error (ok : Nat → Bool) (tOpt : Option String)
    (data : GeoData) (s : St)
    (hp : data.primitive = none ∨
      ∃ p, data.primitive = some p ∧ getPrimitiveType p = none)
    (hok : ∀ n, ok n = true) (hm : s.currentGeoMap.isSome = true)
    (hc : s.canvas.isSome = true) :
    ∃ s' e, createGeometry ok tOpt data s = (s', .error e) ∧
      e.isConfig = true ∧ s'.geoMaps = s.geoMaps ∧
      s'.gpu.live = s.gpu.live := by
  obtain ⟨mid, hmid⟩ := Option.isSome_iff_exists.mp hm
  have hres : ∃ ty, resolveType tOpt s = .ok ty := by
    cases tOpt with
    | none =>
      unfold resolveType
      simp [hmid]
    | some t =>
      unfold resolveType
      by_cases he : t.isEmpty
      · simp [he, hmid]
      · simp [he]
  obtain ⟨ty, hres⟩ := hres
  unfold createGeometry
  simp only [hres]
  rcases hp with hp | ⟨p, hp, hgp⟩
  · simp only [hp]
    exact ⟨s, .missingPrimitive, rfl, rfl, rfl, rfl⟩
  · simp only [hp]
    by_cases he : p.isEmpty
    · rw [if_pos he]
      exact ⟨s, .missingPrimitive, rfl, rfl, rfl, rfl⟩
    · rw [if_neg he]
      obtain ⟨c, hcv⟩ := Option.isSome_iff_exists.mp hc
      simp only [hcv]
      obtain ⟨out, hout⟩ := allocAll_ok_of_ok ok data s.gpu hok
      simp only [hout, hgp]
      exact ⟨_, .invalidPrimitive, rfl, rfl, rfl,
        allocAll_ok_live ok data s.gpu out hout⟩

/-- C7 witness: an unrecognized primitive string on an active canvas. -/
theorem C7_config_error_witness :
    ∃ s' e, createGeometry okAll (some "A") dataBogus sAct = (s', .error e) ∧
      e.isConfig = true ∧ s'.geoMaps = sAct.geoMaps ∧
      s'.gpu.live = sAct.gpu.live :=
  C7_config_error okAll (some "A") dataBogus sAct
    (Or.inr ⟨"bogus", rfl, rfl⟩) (fun _ => rfl) (by decide) (by decide)

/-- C8: a successful `createGeometry` returns the caller-supplied type id
when one was given (and a generated id fresh for the cache when not:
`testGeometryExists` was false for it before the call), after the call
`testGeometryExists` is true for the returned id, and it stays true under
clock updates, shader (de)activation, any further draw, any further create,
and any destruction of a record other than this slot's — i.e. until this
record itself is destroyed or evicted. -/
theorem C8_create_then_exists (ok : Nat → Bool) (tOpt : Option String)
    (data : GeoData) (s s' : St) (t : String)
    (h : createGeometry ok tOpt data s = (s', .ok t)) :
    (∀ t0, tOpt = some t0 → t0.isEmpty = false → t = t0) ∧
    ((tOpt = none ∨ tOpt = some "") → testGeometryExists s t = .ok false) ∧
    testGeometryExists s' t = .ok true ∧
    (∀ s2 : St, testGeometryExists s2 t = .ok true →
      (∀ u, testGeometryExists (timeUpdated u s2) t = .ok true) ∧
      testGeometryExists (shaderActivated s2) t = .ok true ∧
      testGeometryExists (shaderDeactivated s2) t = .ok true ∧
      (∀ u, testGeometryExists (drawGeometry u s2).1 t = .ok true) ∧
      (∀ ok2 tOpt2 data2,
        testGeometryExists (createGeometry ok2 tOpt2 data2 s2).1 t = .ok true) ∧
      (∀ dom geo, geo.type ≠ t ∨ s2.currentGeoMap ≠ some geo.canvasId →
        testGeometryExists (destroyGeometry dom geo s2) t = .ok true)) := by
  have hspec := createGeometry_ok_spec ok tOpt data s s' t h
  refine ⟨(resolveType_ok tOpt s t hspec.1).1, ?_,
    createGeometry_ok_test ok tOpt data s s' t h, ?_⟩
  · intro hfalsy
    obtain ⟨mid, hmid, hkey⟩ := (resolveType_ok tOpt s t hspec.1).2 hfalsy
    have hnone : readSlot s.geoMaps mid t = none := by
      unfold readSlot
      rw [hkey, lookupMap_createKeyForMap _ _ (by decide)]
      rfl
    simp [testGeometryExists, hmid, hnone]
  · intro s2 h2
    exact ⟨fun u => by rw [test_congr s2 (timeUpdated u s2) t rfl rfl]; exact h2,
      by rw [test_congr s2 (shaderActivated s2) t rfl rfl]; exact h2,
      by rw [test_congr s2 (shaderDeactivated s2) t rfl rfl]; exact h2,
      fun u => test_drawGeometry u s2 t h2,
      fun ok2 tOpt2 data2 => test_createGeometry ok2 tOpt2 data2 s2 t h2,
      fun dom geo hne => test_destroyGeometry dom geo s2 t h2 hne⟩

/-- C8 witness: after creating "A", it exists, and still exists after a
draw of "B" and a clock update. -/
theorem C8_create_then_exists_witness :
    testGeometryExists sA "A" = .ok true ∧
    testGeometryExists (drawGeometry "B" sA).1 "A" = .ok true ∧
    testGeometryExists (timeUpdated 7 sA) "A" = .ok true :=
  have r := C8_create_then_exists okAll (some "A") dataT sAct sA "A" (by decide)
  ⟨r.2.2.1, (r.2.2.2 sA r.2.2.1).2.2.2.1 "B", (r.2.2.2 sA r.2.2.1).1 7⟩

/-- C9: when no surface is active (canvas and selected cache both null, as
after scene activation, surface deactivation, or reset), a
`testGeometryExists` call dereferences the null `currentGeoMap` and throws
a TypeError — it neither returns false nor raises the explicit
NoCanvasActiveException that `drawGeometry` raises in the same state. -/
theorem C9_test_throws_without_surface (s : St) (t u : String)
    (h1 : s.canvas = none) (h2 : s.currentGeoMap = none) :
    testGeometryExists s t = .error .typeError ∧
    (∀ b, testGeometryExists s t ≠ .ok b) ∧
    (drawGeometry u s).2 = some .noCanvasActive ∧
    Err.typeError ≠ Err.noCanvasActive := by
  have ht : testGeometryExists s t = .error .typeError := by
    unfold testGeometryExists
    rw [h2]
  refine ⟨ht, ?_, ?_, by decide⟩
  · intro b hb
    rw [ht] at hb
    exact Except.noConfusion hb
  · unfold drawGeometry
    rw [h1]

/-- C9 witness: the freshly loaded module state has no active surface. -/
theorem C9_test_throws_without_surface_witness :
    testGeometryExists initSt "x" = .error .typeError ∧
    (drawGeometry "y" initSt).2 = some .noCanvasActive :=
  have r := C9_test_throws_without_surface initSt "x" "y" rfl rfl
  ⟨r.1, r.2.2.1⟩

/-- C10: every record stored by `createGeometry` and every record refreshed
by a successful `drawGeometry` carries `lastUsed` equal to the state's
current clock; the eviction scan only ever selects a record with `lastUsed`
strictly below the current clock; hence a record whose `lastUsed` equals
the clock — one created or drawn at the current tick — is never the
selected evictee. -/
theorem C10_fresh_not_evicted (dom : String → Bool) (s : St) :
    (∀ g, (scanMaps dom s.geoMaps (s.time, none)).2 = some g →
      g.lastUsed < s.time) ∧
    (∀ ok tOpt data s' t, createGeometry ok tOpt data s = (s', .ok t) →
      ∃ mid geo, s'.currentGeoMap = some mid ∧
        readSlot s'.geoMaps mid t = some geo ∧ geo.lastUsed = s.time ∧
        s'.time = s.time) ∧
    (∀ t s', drawGeometry t s = (s', none) →
      ∃ mid geo, s'.currentGeoMap = some mid ∧
        readSlot s'.geoMaps mid t = some geo ∧ geo.lastUsed = s.time ∧
        s'.time = s.time) ∧
    (∀ g r, (scanMaps dom s.geoMaps (s.time, none)).2 = some g →
      r.lastUsed = s.time → g ≠ r) := by
  have hsel : ∀ g, (scanMaps dom s.geoMaps (s.time, none)).2 = some g →
      g.lastUsed < s.time := by
    intro g hg
    have hcand := (scanMaps_some dom s g hg).1
    simp [isCand] at hcand
    exact hcand.2
  refine ⟨hsel, ?_, ?_, ?_⟩
  · intro ok tOpt data s' t h
    obtain ⟨_, mid, geo, hmid, hlast, _, hmaps, hcgm, _, htime, _, _⟩ :=
      createGeometry_ok_spec ok tOpt data s s' t h
    refine ⟨mid, geo, by rw [hcgm]; exact hmid, ?_, hlast, htime⟩
    rw [hmaps, readSlot_writeSlot_self]
  · intro t s' h
    obtain ⟨mid, geo, hmid, _, _, hmaps, _, hcgm, _, htime, _, _⟩ :=
      drawGeometry_ok_spec t s s' h
    refine ⟨mid, { geo with lastUsed := s.time }, by rw [hcgm]; exact hmid,
      ?_, rfl, htime⟩
    rw [hmaps, readSlot_writeSlot_self]
  · intro g r hg hr heq
    have := hsel g hg
    rw [heq, hr] at this
    omega

/-- C10 witness: the record just created in `sA` carries the current clock
value as `lastUsed`. -/
theorem C10_fresh_not_evicted_witness :
    ∃ mid geo, sA.currentGeoMap = some mid ∧
      readSlot sA.geoMaps mid "A" = some geo ∧ geo.lastUsed = sAct.time ∧
      sA.time = sAct.time :=
  (C10_fresh_not_evicted domAll sAct).2.1 okAll (some "A") dataT sA "A"
    (by decide)
